import Mathlib

/-!
# Verification of the GetScraping node client (`src/client.ts`)

Shallow embedding of the client library: the request parameter model
(`GetScrapingParams` and its nested option groups), the client
(`GetScrapingClient` with `request` and `scrape`), and the retrying
executor (`fetchRetry`).

The HTTP transport is modelled by an oracle `Transport : Nat → FetchOutcome`
giving, for each physical attempt index (0-based), either the `Response`
that `fetch` resolves to or the error it rejects with.  The executor is
deterministic given that oracle, so its behaviour is captured by a pure
function returning an `ExecTrace`: the final outcome, the number of
physical attempts performed, and the number of inter-attempt delays slept.
-/

/-- An HTTP response as the client sees it: status code and body text. -/
structure Response where
  status : Int
  body : String
deriving Repr, DecidableEq

/-- Outcome of one physical `fetch` call: it either resolves with a
`Response` or rejects with a transport error (modelled as a message). -/
inductive FetchOutcome where
  | ok (resp : Response)
  | err (e : String)
deriving Repr, DecidableEq

/-- Transport oracle: the outcome of the i-th physical attempt (0-based).
Every attempt re-sends the same request, so the oracle depends only on
the attempt index. -/
def Transport : Type := Nat → FetchOutcome

/-- `InterceptRequestParams` of `src/client.ts`. -/
structure InterceptRequestParams where
  url_regex : String
  request_number : Option Int
  return_json : Option Bool
deriving Repr, DecidableEq

/-- `JavascriptRenderingOptions` of `src/client.ts`. -/
structure JavascriptRenderingOptions where
  screenshot : Option Bool
  wait_millis : Option Int
  wait_for_request : Option String
  wait_for_selector : Option String
  intercept_request : Option InterceptRequestParams
deriving Repr, DecidableEq

/-- `RetryConfig` of `src/client.ts`: `num_retries` is required, the two
success criteria are optional. -/
structure RetryConfig where
  num_retries : Int
  success_status_codes : Option (List Int)
  success_selector : Option String
deriving Repr, DecidableEq

/-- The HTTP method union type `'GET' | 'POST'` of `GetScrapingParams`. -/
inductive HttpMethod where
  | GET
  | POST
deriving Repr, DecidableEq

/-- `GetScrapingParams` as declared in `src/client.ts` (the client module
declares its own copy of the parameter type; it has no `body` field and
carries `use_external_proxy`).  Optional fields are `Option`s. -/
structure GetScrapingParams where
  url : String
  method : HttpMethod
  js_rendering_options : Option JavascriptRenderingOptions
  cookies : Option (List String)
  headers : Option (List (String × String))
  omit_default_headers : Option Bool
  use_external_proxy : Option Bool
  retry_config : Option RetryConfig
  timeout_millis : Option Int
deriving Repr, DecidableEq

/-- `const RETRY_DELAY_MS = 200`. -/
def RETRY_DELAY_MS : Nat := 200

/-- JSON string literal (model level: quotation without escaping). -/
def jsonString (s : String) : String := "\"" ++ s ++ "\""

/-- JSON boolean literal. -/
def jsonBool (b : Bool) : String := if b then "true" else "false"

/-- JSON number literal for an integer. -/
def jsonInt (n : Int) : String := toString n

/-- One `"key":value` member of a JSON object. -/
def jsonMember (k v : String) : String := jsonString k ++ ":" ++ v

/-- A JSON object from its present members; `none` members (fields that
are `undefined` in the source object) are dropped, as `JSON.stringify`
drops them. -/
def jsonObj (members : List (Option String)) : String :=
  "\x7b" ++ String.intercalate "," (members.filterMap id) ++ "\x7d"

/-- A JSON array. -/
def jsonArr (elems : List String) : String :=
  "[" ++ String.intercalate "," elems ++ "]"

/-- Serialization of `InterceptRequestParams`. -/
def jsonIntercept (p : InterceptRequestParams) : String :=
  jsonObj [some (jsonMember "url_regex" (jsonString p.url_regex)),
    p.request_number.map (fun n => jsonMember "request_number" (jsonInt n)),
    p.return_json.map (fun b => jsonMember "return_json" (jsonBool b))]

/-- Serialization of `JavascriptRenderingOptions`. -/
def jsonRendering (p : JavascriptRenderingOptions) : String :=
  jsonObj [p.screenshot.map (fun b => jsonMember "screenshot" (jsonBool b)),
    p.wait_millis.map (fun n => jsonMember "wait_millis" (jsonInt n)),
    p.wait_for_request.map (fun s => jsonMember "wait_for_request" (jsonString s)),
    p.wait_for_selector.map (fun s => jsonMember "wait_for_selector" (jsonString s)),
    p.intercept_request.map (fun q => jsonMember "intercept_request" (jsonIntercept q))]

/-- Serialization of `RetryConfig`. -/
def jsonRetryConfig (p : RetryConfig) : String :=
  jsonObj [some (jsonMember "num_retries" (jsonInt p.num_retries)),
    p.success_status_codes.map
      (fun cs => jsonMember "success_status_codes" (jsonArr (cs.map jsonInt))),
    p.success_selector.map (fun s => jsonMember "success_selector" (jsonString s))]

/-- Serialization of the method union. -/
def jsonMethod : HttpMethod → String
  | HttpMethod.GET => jsonString "GET"
  | HttpMethod.POST => jsonString "POST"

/-- `JSON.stringify(params)`: the request body sent on every attempt. -/
def jsonStringifyParams (p : GetScrapingParams) : String :=
  jsonObj [some (jsonMember "url" (jsonString p.url)),
    some (jsonMember "method" (jsonMethod p.method)),
    p.js_rendering_options.map
      (fun r => jsonMember "js_rendering_options" (jsonRendering r)),
    p.cookies.map (fun cs => jsonMember "cookies" (jsonArr (cs.map jsonString))),
    p.headers.map (fun hs =>
      jsonMember "headers" (jsonObj (hs.map (fun kv => some (jsonMember kv.1 (jsonString kv.2)))))),
    p.omit_default_headers.map (fun b => jsonMember "omit_default_headers" (jsonBool b)),
    p.use_external_proxy.map (fun b => jsonMember "use_external_proxy" (jsonBool b)),
    p.retry_config.map (fun rc => jsonMember "retry_config" (jsonRetryConfig rc)),
    p.timeout_millis.map (fun n => jsonMember "timeout_millis" (jsonInt n))]

/-- The `RequestInit` value both branches of `request` pass to `fetch`:
method, header list, body. -/
structure RequestInit where
  method : String
  headers : List (String × String)
  body : String
deriving Repr, DecidableEq

/-- Final outcome of the executor, as seen by the caller of `request` /
`fetchRetry`:
* `returned resp` — the promise resolved with a `Response`;
* `threw e` — the promise rejected with error `e`;
* `noResponse` — the `while` loop of `fetchRetry` ran zero iterations and
  the function fell through, resolving with `undefined`. -/
inductive RetryResult where
  | returned (resp : Response)
  | threw (e : String)
  | noResponse
deriving Repr, DecidableEq

/-- Observable trace of one executor run: final result, number of physical
`fetch` calls performed, number of `sleep(RETRY_DELAY_MS)` delays taken. -/
structure ExecTrace where
  result : RetryResult
  attempts : Nat
  sleeps : Nat
deriving Repr, DecidableEq

/-- The `while (retriesRemaining > 0)` loop of `fetchRetry`, with
`remaining` the current `retriesRemaining`, `i` the number of attempts
already performed, and `s` the number of sleeps already taken.
Per iteration: `try { return await fetch(...) }` resolves on an `ok`
outcome; on `err` the `catch` first sleeps, then throws if
`retriesRemaining <= 1` (i.e. `r = 0`); the `finally` decrements
`retriesRemaining` exactly once on every path. -/
def fetchRetryLoop (t : Transport) : Nat → Nat → Nat → ExecTrace
  | 0, i, s => ⟨RetryResult.noResponse, i, s⟩
  | r + 1, i, s =>
    match t i with
    | FetchOutcome.ok resp => ⟨RetryResult.returned resp, i + 1, s⟩
    | FetchOutcome.err e =>
      if r = 0 then ⟨RetryResult.threw e, i + 1, s + 1⟩
      else fetchRetryLoop t r (i + 1) (s + 1)

/-- The computed attempt budget `Math.max(retries, 1)`.  The `retries`
parameter of `fetchRetry` is optional; when it is `undefined`,
`Math.max(undefined, 1)` is `NaN` and `NaN > 0` is false, so the loop
runs zero times — modelled as budget `0`. -/
def attemptBudget : Option Int → Nat
  | some r => (max r 1).toNat
  | none => 0

/-- `fetchRetry(input, retries, init)` of `src/client.ts`, run against a
transport oracle.  `input` and `init` are fixed across attempts and do not
influence control flow, so they are not parameters of the model; the
request actually sent is exposed by `GetScrapingClient.request` below. -/
def fetchRetry (t : Transport) (retries : Option Int) : ExecTrace :=
  fetchRetryLoop t (attemptBudget retries) 0 0

/-- A single plain `fetch` call (the no-`retry_config` branch of
`request`): one attempt, no sleep, the outcome propagated as is. -/
def singleFetch (t : Transport) : ExecTrace :=
  match t 0 with
  | FetchOutcome.ok resp => ⟨RetryResult.returned resp, 1, 0⟩
  | FetchOutcome.err e => ⟨RetryResult.threw e, 1, 0⟩

/-- `GetScrapingClient`: constructed from `api_url` and `api_key`, both
stored verbatim. -/
structure GetScrapingClient where
  api_url : String
  api_key : String
deriving Repr, DecidableEq

/-- The parameter lists of the constructors of `GetScrapingClient` in the
source: a single constructor, taking `api_url` then `api_key` (both
required strings, no defaults). -/
def constructorForms : List (List String) := [["api_url", "api_key"]]

/-- The `RequestInit` literal built (identically) in both branches of
`GetScrapingClient.request`: `method: 'POST'`, a headers object holding
only `X-API-Key`, `body: JSON.stringify(params)`. -/
def buildInit (c : GetScrapingClient) (p : GetScrapingParams) : RequestInit :=
  ⟨"POST", [("X-API-Key", c.api_key)], jsonStringifyParams p⟩

/-- What one call to `request` did: the URL it targeted, the
`RequestInit` it sent on every attempt, and the execution trace. -/
structure RequestOutcome where
  url : String
  init : RequestInit
  trace : ExecTrace
deriving Repr, DecidableEq

/-- `GetScrapingClient.request`: if `params.retry_config != null`, defer
to `fetchRetry` with `params.retry_config.num_retries`; otherwise a single
plain `fetch`.  Both branches send the same `POST` with the same headers
and body. -/
def GetScrapingClient.request (c : GetScrapingClient) (url : String)
    (p : GetScrapingParams) (t : Transport) : RequestOutcome :=
  match p.retry_config with
  | some rc => ⟨url, buildInit c p, fetchRetry t (some rc.num_retries)⟩
  | none => ⟨url, buildInit c p, singleFetch t⟩

/-- `GetScrapingClient.scrape`: endpoint selection on
`params.js_rendering_options != null`, then `request`. -/
def GetScrapingClient.scrape (c : GetScrapingClient) (p : GetScrapingParams)
    (t : Transport) : RequestOutcome :=
  match p.js_rendering_options with
  | some _ => c.request (c.api_url ++ "/scrape_with_js") p t
  | none => c.request (c.api_url ++ "/scrape") p t

/-- Replace the `retry_config` of a parameter value, all other fields
unchanged (used to state that the executor ignores the success criteria). -/
def withRetryConfig (p : GetScrapingParams) (rc : RetryConfig) : GetScrapingParams :=
  ⟨p.url, p.method, p.js_rendering_options, p.cookies, p.headers,
    p.omit_default_headers, p.use_external_proxy, some rc, p.timeout_millis⟩

/-! ## Loop lemmas -/

/-- When every attempt fails, the loop entered with budget `r + 1` performs
all `r + 1` attempts, sleeps after each failure, and throws the error of
the final attempt. -/
theorem fetchRetryLoop_all_err (t : Transport) (e : Nat → String)
    (hall : ∀ j, t j = FetchOutcome.err (e j)) :
    ∀ r i s, fetchRetryLoop t (r + 1) i s =
      ⟨RetryResult.threw (e (i + r)), i + r + 1, s + r + 1⟩ := by
  intro r
  induction r with
  | zero =>
    intro i s
    simp [fetchRetryLoop, hall i]
  | succ r ih =>
    intro i s
    have step : fetchRetryLoop t (r + 1 + 1) i s = fetchRetryLoop t (r + 1) (i + 1) (s + 1) := by
      simp [fetchRetryLoop, hall i]
    rw [step, ih]
    simp only [ExecTrace.mk.injEq, RetryResult.threw.injEq]
    refine ⟨congrArg e (by omega), by omega, by omega⟩

/-- If the first `k` attempts fail and attempt `k` (0-based, within the
budget) resolves with a response, the loop returns that response after
exactly `k + 1` attempts and `k` sleeps. -/
theorem fetchRetryLoop_first_ok (t : Transport) :
    ∀ k r i s resp, k < r →
      (∀ j, j < k → ∃ er, t (i + j) = FetchOutcome.err er) →
      t (i + k) = FetchOutcome.ok resp →
      fetchRetryLoop t r i s = ⟨RetryResult.returned resp, i + k + 1, s + k⟩ := by
  intro k
  induction k with
  | zero =>
    intro r i s resp hk _ hok
    rw [Nat.add_zero] at hok
    cases r with
    | zero => exact absurd hk (by omega)
    | succ r' => simp [fetchRetryLoop, hok]
  | succ k ih =>
    intro r i s resp hk herr hok
    cases r with
    | zero => exact absurd hk (by omega)
    | succ r' =>
      obtain ⟨er, h0⟩ := herr 0 (Nat.succ_pos k)
      rw [Nat.add_zero] at h0
      have hr' : r' ≠ 0 := by omega
      have step : fetchRetryLoop t (r' + 1) i s = fetchRetryLoop t r' (i + 1) (s + 1) := by
        simp [fetchRetryLoop, h0, hr']
      have hrec := ih r' (i + 1) (s + 1) resp (by omega)
        (fun j hj => by
          obtain ⟨er', hj'⟩ := herr (j + 1) (by omega)
          exact ⟨er', by rw [show i + 1 + j = i + (j + 1) by omega]; exact hj'⟩)
        (by rw [show i + 1 + k = i + (k + 1) by omega]; exact hok)
      rw [step, hrec]
      have h2 : i + 1 + k + 1 = i + (k + 1) + 1 := by omega
      have h3 : s + 1 + k = s + (k + 1) := by omega
      rw [h2, h3]

/-- A loop entered with a positive budget performs at least one attempt. -/
theorem fetchRetryLoop_attempts_lower (t : Transport) :
    ∀ r i s, 0 < r → i + 1 ≤ (fetchRetryLoop t r i s).attempts := by
  intro r
  induction r with
  | zero => intro i s h; exact absurd h (by omega)
  | succ r ih =>
    intro i s _
    by_cases hr : r = 0
    · subst hr
      cases h : t i <;> simp [fetchRetryLoop, h]
    · cases h : t i with
      | ok resp => simp [fetchRetryLoop, h]
      | err e =>
        have hrec := ih (i + 1) (s + 1) (by omega)
        simp only [fetchRetryLoop, h, hr, if_false]
        omega

/-- The computed budget of a present (numeric) `num_retries` value is
positive: `Math.max(m, 1) >= 1`. -/
theorem attemptBudget_pos (m : Int) : 0 < attemptBudget (some m) := by
  simp only [attemptBudget]
  omega

/-- For a non-negative count given as a `Nat`, the computed budget is
`max n 1`. -/
theorem attemptBudget_coe (n : Nat) : attemptBudget (some (n : Int)) = max n 1 := by
  simp only [attemptBudget]
  omega

/-- `fetchRetry` under an always-failing transport: all budgeted attempts
are performed, each is followed by a sleep, and the final attempt's error
is thrown. -/
theorem fetchRetry_all_err (t : Transport) (e : Nat → String)
    (hall : ∀ j, t j = FetchOutcome.err (e j)) (m : Int) :
    fetchRetry t (some m) =
      ⟨RetryResult.threw (e (attemptBudget (some m) - 1)),
        attemptBudget (some m), attemptBudget (some m)⟩ := by
  obtain ⟨r, hr⟩ : ∃ r, attemptBudget (some m) = r + 1 :=
    ⟨attemptBudget (some m) - 1, by have := attemptBudget_pos m; omega⟩
  unfold fetchRetry
  rw [hr, fetchRetryLoop_all_err t e hall r 0 0]
  simp

/-- `fetchRetry` when the first `k` attempts fail and attempt `k` (within
the budget) resolves: that response is returned after `k + 1` attempts. -/
theorem fetchRetry_first_ok (t : Transport) (m : Int) (k : Nat) (resp : Response)
    (herr : ∀ j, j < k → ∃ er, t j = FetchOutcome.err er)
    (hok : t k = FetchOutcome.ok resp)
    (hk : k < attemptBudget (some m)) :
    fetchRetry t (some m) = ⟨RetryResult.returned resp, k + 1, k⟩ := by
  unfold fetchRetry
  have := fetchRetryLoop_first_ok t k (attemptBudget (some m)) 0 0 resp hk
    (fun j hj => by simpa using herr j hj) (by simpa using hok)
  simpa using this

/-- Every call to `request` performs at least one physical attempt. -/
theorem request_attempts_pos (c : GetScrapingClient) (url : String)
    (p : GetScrapingParams) (t : Transport) :
    1 ≤ (c.request url p t).trace.attempts := by
  unfold GetScrapingClient.request
  cases hrc : p.retry_config with
  | some rc =>
    have := fetchRetryLoop_attempts_lower t (attemptBudget (some rc.num_retries)) 0 0
      (attemptBudget_pos rc.num_retries)
    simpa [fetchRetry] using this
  | none =>
    cases h : t 0 <;> simp [singleFetch, h]

/-! ## Claims -/

/-- C1: for every retry configuration with `num_retries = n ≥ 0`, if every
physical attempt fails, `fetchRetry` performs exactly `max(n, 1)` attempts
and then throws the transport error of the final attempt; if an earlier
attempt succeeds, it performs fewer attempts (exactly one more than the
index of the first successful attempt). -/
theorem C1_retry_attempt_count (t : Transport) (n : Nat) (e : Nat → String) :
    ((∀ j, t j = FetchOutcome.err (e j)) →
      (fetchRetry t (some (n : Int))).result = RetryResult.threw (e (max n 1 - 1)) ∧
      (fetchRetry t (some (n : Int))).attempts = max n 1) ∧
    (∀ k resp, (∀ j, j < k → t j = FetchOutcome.err (e j)) →
      t k = FetchOutcome.ok resp → k + 1 < max n 1 →
      (fetchRetry t (some (n : Int))).result = RetryResult.returned resp ∧
      (fetchRetry t (some (n : Int))).attempts = k + 1 ∧
      (fetchRetry t (some (n : Int))).attempts < max n 1) := by
  constructor
  · intro hall
    rw [fetchRetry_all_err t e hall (n : Int), attemptBudget_coe n]
    exact ⟨rfl, rfl⟩
  · intro k resp herr hok hklt
    have hk : k < attemptBudget (some (n : Int)) := by rw [attemptBudget_coe n]; omega
    rw [fetchRetry_first_ok t (n : Int) k resp (fun j hj => ⟨e j, herr j hj⟩) hok hk]
    refine ⟨rfl, rfl, ?_⟩
    show k + 1 < max n 1
    omega

/-- Witness for C1 at concrete inputs: an always-failing transport with
`num_retries = 3` yields 3 attempts and throws; a transport whose second
attempt succeeds yields 2 attempts. -/
theorem C1_retry_attempt_count_witness :
    (fetchRetry (fun _ => FetchOutcome.err "ECONNRESET") (some (3 : Int))).result
        = RetryResult.threw "ECONNRESET" ∧
    (fetchRetry (fun _ => FetchOutcome.err "ECONNRESET") (some (3 : Int))).attempts = 3 ∧
    (fetchRetry (fun j => if j = 0 then FetchOutcome.err "ECONNRESET"
        else FetchOutcome.ok ⟨200, "hello"⟩) (some (3 : Int))).attempts = 2 := by
  have h1 := (C1_retry_attempt_count (fun _ => FetchOutcome.err "ECONNRESET") 3
    (fun _ => "ECONNRESET")).1 (fun j => rfl)
  have h2 := (C1_retry_attempt_count
    (fun j => if j = 0 then FetchOutcome.err "ECONNRESET" else FetchOutcome.ok ⟨200, "hello"⟩) 3
    (fun _ => "ECONNRESET")).2 1 ⟨200, "hello"⟩
    (fun j hj => by interval_cases j; rfl) rfl (by decide)
  exact ⟨h1.1, h1.2, h2.2.1⟩

/-- C2 (code evaluation): with `num_retries = 3` and
`success_status_codes = [200]`, a first attempt resolving with a
status-500 response is returned immediately after exactly one attempt —
`fetchRetry` never consults the configured status codes, contradicting
the `RetryConfig` documentation of retrying unsuccessful requests. -/
theorem C2_status_codes_ignored :
    (GetScrapingClient.request ⟨"https://api.example.com", "KEY"⟩
      "https://api.example.com/scrape"
      ⟨"https://example.com", HttpMethod.GET, none, none, none, none, none,
        some ⟨3, some [200], none⟩, none⟩
      (fun _ => FetchOutcome.ok ⟨500, "server error"⟩)).trace
      = ⟨RetryResult.returned ⟨500, "server error"⟩, 1, 0⟩ := by
  rfl

/-- C3 (code evaluation): with `num_retries = 3` and
`success_selector = "#ok"`, a first attempt resolving with a body that
contains no element matching the selector is returned immediately after
exactly one attempt — `fetchRetry` never parses the body or consults the
selector, contradicting the `RetryConfig` documentation. -/
theorem C3_selector_ignored :
    (GetScrapingClient.request ⟨"https://api.example.com", "KEY"⟩
      "https://api.example.com/scrape"
      ⟨"https://example.com", HttpMethod.GET, none, none, none, none, none,
        some ⟨3, none, some "#ok"⟩, none⟩
      (fun _ => FetchOutcome.ok ⟨200, "<html><body>no match here</body></html>"⟩)).trace
      = ⟨RetryResult.returned ⟨200, "<html><body>no match here</body></html>"⟩, 1, 0⟩ := by
  rfl

/-- C4 counterexample: `scrape` performs no validation.  With an empty
`url`, and likewise with a negative `num_retries`, a physical network
attempt is made (one attempt, a response comes back) instead of failing
before any network call. -/
theorem C4_no_validation_counterexample :
    ((GetScrapingClient.scrape ⟨"https://api.example.com", "KEY"⟩
        ⟨"", HttpMethod.GET, none, none, none, none, none, none, none⟩
        (fun _ => FetchOutcome.ok ⟨200, "page"⟩)).trace.attempts = 1 ∧
      (GetScrapingClient.scrape ⟨"https://api.example.com", "KEY"⟩
        ⟨"", HttpMethod.GET, none, none, none, none, none, none, none⟩
        (fun _ => FetchOutcome.ok ⟨200, "page"⟩)).trace.result
        = RetryResult.returned ⟨200, "page"⟩) ∧
    ((GetScrapingClient.scrape ⟨"https://api.example.com", "KEY"⟩
        ⟨"https://example.com", HttpMethod.GET, none, none, none, none, none,
          some ⟨-5, none, none⟩, none⟩
        (fun _ => FetchOutcome.ok ⟨200, "page"⟩)).trace.attempts = 1 ∧
      (GetScrapingClient.scrape ⟨"https://api.example.com", "KEY"⟩
        ⟨"https://example.com", HttpMethod.GET, none, none, none, none, none,
          some ⟨-5, none, none⟩, none⟩
        (fun _ => FetchOutcome.ok ⟨200, "page"⟩)).trace.result
        = RetryResult.returned ⟨200, "page"⟩) := by
  exact ⟨⟨rfl, rfl⟩, ⟨rfl, rfl⟩⟩

/-- C4 (amended): `scrape` performs no client-side validation at all —
for every input, including an absent/empty `url` or a negative
`num_retries`, at least one physical network attempt is made (a negative
`num_retries` is merely coerced to a single attempt by `Math.max`). -/
theorem C4_no_validation (c : GetScrapingClient) (p : GetScrapingParams) (t : Transport) :
    1 ≤ (c.scrape p t).trace.attempts := by
  unfold GetScrapingClient.scrape
  cases h : p.js_rendering_options <;> exact request_attempts_pos c _ p t

/-- C5: endpoint selection is a pure function of the
`js_rendering_options` field: populated resolves to
`{api_url}/scrape_with_js`, absent resolves to `{api_url}/scrape`. -/
theorem C5_endpoint_selection (c : GetScrapingClient) (p : GetScrapingParams) (t : Transport) :
    (c.scrape p t).url = c.api_url ++
      (if p.js_rendering_options.isSome then "/scrape_with_js" else "/scrape") := by
  cases hjs : p.js_rendering_options <;>
    cases hrc : p.retry_config <;>
      simp [GetScrapingClient.scrape, GetScrapingClient.request, hjs, hrc]

/-- C6: with no retry configuration, exactly one physical attempt is made,
no success evaluation occurs, no inter-attempt delay is taken, and the
transport outcome (response or error) is propagated as is. -/
theorem C6_no_retry_single_attempt (c : GetScrapingClient) (url : String)
    (p : GetScrapingParams) (t : Transport) (h : p.retry_config = none) :
    (c.request url p t).trace.attempts = 1 ∧
    (c.request url p t).trace.sleeps = 0 ∧
    (c.request url p t).trace.result =
      (match t 0 with
       | FetchOutcome.ok resp => RetryResult.returned resp
       | FetchOutcome.err e => RetryResult.threw e) := by
  cases h0 : t 0 <;> simp [GetScrapingClient.request, h, singleFetch, h0]

/-- Witness for C6 at a concrete input: no retry configuration and a
failing transport give one attempt, zero delays, and the propagated
error. -/
theorem C6_no_retry_single_attempt_witness :
    (GetScrapingClient.request ⟨"https://api.example.com", "KEY"⟩
      "https://api.example.com/scrape"
      ⟨"https://example.com", HttpMethod.GET, none, none, none, none, none, none, none⟩
      (fun _ => FetchOutcome.err "ECONNREFUSED")).trace.attempts = 1 ∧
    (GetScrapingClient.request ⟨"https://api.example.com", "KEY"⟩
      "https://api.example.com/scrape"
      ⟨"https://example.com", HttpMethod.GET, none, none, none, none, none, none, none⟩
      (fun _ => FetchOutcome.err "ECONNREFUSED")).trace.sleeps = 0 ∧
    (GetScrapingClient.request ⟨"https://api.example.com", "KEY"⟩
      "https://api.example.com/scrape"
      ⟨"https://example.com", HttpMethod.GET, none, none, none, none, none, none, none⟩
      (fun _ => FetchOutcome.err "ECONNREFUSED")).trace.result
      = RetryResult.threw "ECONNREFUSED" := by
  have h := C6_no_retry_single_attempt ⟨"https://api.example.com", "KEY"⟩
    "https://api.example.com/scrape"
    ⟨"https://example.com", HttpMethod.GET, none, none, none, none, none, none, none⟩
    (fun _ => FetchOutcome.err "ECONNREFUSED") rfl
  exact ⟨h.1, h.2.1, h.2.2⟩

/-- C7 counterexample: the client never sets a `Content-Type` header.
With `omit_default_headers = false` (default header injection not
suppressed), the outgoing request still carries no
`Content-Type: application/json` header — only `X-API-Key`. -/
theorem C7_content_type_counterexample :
    ("Content-Type", "application/json") ∉
      (GetScrapingClient.scrape ⟨"https://api.example.com", "KEY"⟩
        ⟨"https://example.com", HttpMethod.GET, none, none, none, some false,
          none, none, none⟩
        (fun _ => FetchOutcome.ok ⟨200, "page"⟩)).init.headers := by
  decide

/-- C7 (amended): every outgoing HTTP request is a `POST` whose header
list is exactly `[X-API-Key: <key>]` (no `Content-Type` header is ever
set, regardless of `omit_default_headers`) and whose body is the
JSON-serialized request parameters. -/
theorem C7_request_shape (c : GetScrapingClient) (url : String)
    (p : GetScrapingParams) (t : Transport) :
    (c.request url p t).init.method = "POST" ∧
    (c.request url p t).init.headers = [("X-API-Key", c.api_key)] ∧
    (c.request url p t).init.body = jsonStringifyParams p := by
  cases h : p.retry_config <;> simp [GetScrapingClient.request, buildInit, h]

/-- C8 counterexample: entered with a zero computed attempt budget (the
`retries` argument absent, so `Math.max(undefined, 1)` is `NaN` and the
loop guard is false), `fetchRetry` performs no attempt and resolves
normally with `undefined` — it does not throw any error, in particular no
"unable to fetch" error. -/
theorem C8_zero_attempts_counterexample :
    (fetchRetry (fun _ => FetchOutcome.err "ECONNRESET") none).result
        = RetryResult.noResponse ∧
    (fetchRetry (fun _ => FetchOutcome.err "ECONNRESET") none).attempts = 0 ∧
    (fetchRetry (fun _ => FetchOutcome.err "ECONNRESET") none).result
        ≠ RetryResult.threw "unable to fetch" := by
  refine ⟨rfl, rfl, ?_⟩
  decide

/-- C8 (amended): when the loop is entered with zero computed attempts,
`fetchRetry` makes no physical attempt, takes no delay, and returns
normally with no response (`undefined`) rather than failing with an
error. -/
theorem C8_zero_attempts_returns_undefined (t : Transport) :
    (fetchRetry t none).result = RetryResult.noResponse ∧
    (fetchRetry t none).attempts = 0 ∧
    (fetchRetry t none).sleeps = 0 := by
  exact ⟨rfl, rfl, rfl⟩

/-- C9 (code evaluation): the source has exactly one constructor form,
taking `api_url` then `api_key` (both required, stored verbatim, no
default base address); the API-key-alone (hosted) construction form the
README documents does not exist in the code. -/
theorem C9_constructor_forms :
    constructorForms = [["api_url", "api_key"]] ∧
    ["api_key"] ∉ constructorForms ∧
    (∀ u k, (GetScrapingClient.mk u k).api_url = u ∧
      (GetScrapingClient.mk u k).api_key = k) := by
  refine ⟨rfl, by decide, fun u k => ⟨rfl, rfl⟩⟩

/-- C10: for a request carrying a retry configuration, as soon as a
physical attempt resolves with any HTTP response, the executor returns
exactly that response with no further attempt; and the trace (result,
attempt count, delays) is unchanged under any modification of
`success_status_codes` and `success_selector` that keeps `num_retries`. -/
theorem C10_response_returned_immediately (c : GetScrapingClient) (url : String)
    (p : GetScrapingParams) (rc rc' : RetryConfig) (t : Transport) (k : Nat)
    (resp : Response)
    (hnum : rc'.num_retries = rc.num_retries)
    (herr : ∀ j, j < k → ∃ er, t j = FetchOutcome.err er)
    (hok : t k = FetchOutcome.ok resp)
    (hk : k < attemptBudget (some rc.num_retries)) :
    (c.request url (withRetryConfig p rc) t).trace.result
        = RetryResult.returned resp ∧
    (c.request url (withRetryConfig p rc) t).trace.attempts = k + 1 ∧
    (c.request url (withRetryConfig p rc') t).trace
        = (c.request url (withRetryConfig p rc) t).trace := by
  have base := fetchRetry_first_ok t rc.num_retries k resp herr hok hk
  refine ⟨?_, ?_, ?_⟩
  · simp [GetScrapingClient.request, withRetryConfig, base]
  · simp [GetScrapingClient.request, withRetryConfig, base]
  · simp [GetScrapingClient.request, withRetryConfig, hnum]

/-- Witness for C10 at concrete inputs: with `num_retries = 5`, two
transport failures then a status-500 response, the 500 response is
returned after exactly 3 attempts, and the trace is identical whether the
configuration carries `success_status_codes = [200]` and
`success_selector = "#ok"` or neither. -/
theorem C10_response_returned_immediately_witness :
    (GetScrapingClient.request ⟨"https://api.example.com", "KEY"⟩
      "https://api.example.com/scrape"
      (withRetryConfig
        ⟨"https://example.com", HttpMethod.GET, none, none, none, none, none, none, none⟩
        ⟨5, some [200], some "#ok"⟩)
      (fun j => if j < 2 then FetchOutcome.err "ETIMEDOUT"
        else FetchOutcome.ok ⟨500, "bad gateway page"⟩)).trace.result
      = RetryResult.returned ⟨500, "bad gateway page"⟩ ∧
    (GetScrapingClient.request ⟨"https://api.example.com", "KEY"⟩
      "https://api.example.com/scrape"
      (withRetryConfig
        ⟨"https://example.com", HttpMethod.GET, none, none, none, none, none, none, none⟩
        ⟨5, some [200], some "#ok"⟩)
      (fun j => if j < 2 then FetchOutcome.err "ETIMEDOUT"
        else FetchOutcome.ok ⟨500, "bad gateway page"⟩)).trace.attempts = 3 ∧
    (GetScrapingClient.request ⟨"https://api.example.com", "KEY"⟩
      "https://api.example.com/scrape"
      (withRetryConfig
        ⟨"https://example.com", HttpMethod.GET, none, none, none, none, none, none, none⟩
        ⟨5, none, none⟩)
      (fun j => if j < 2 then FetchOutcome.err "ETIMEDOUT"
        else FetchOutcome.ok ⟨500, "bad gateway page"⟩)).trace
      = (GetScrapingClient.request ⟨"https://api.example.com", "KEY"⟩
        "https://api.example.com/scrape"
        (withRetryConfig
          ⟨"https://example.com", HttpMethod.GET, none, none, none, none, none, none, none⟩
          ⟨5, some [200], some "#ok"⟩)
        (fun j => if j < 2 then FetchOutcome.err "ETIMEDOUT"
          else FetchOutcome.ok ⟨500, "bad gateway page"⟩)).trace := by
  have h := C10_response_returned_immediately ⟨"https://api.example.com", "KEY"⟩
    "https://api.example.com/scrape"
    ⟨"https://example.com", HttpMethod.GET, none, none, none, none, none, none, none⟩
    ⟨5, some [200], some "#ok"⟩ ⟨5, none, none⟩
    (fun j => if j < 2 then FetchOutcome.err "ETIMEDOUT"
      else FetchOutcome.ok ⟨500, "bad gateway page"⟩)
    2 ⟨500, "bad gateway page"⟩ rfl
    (fun j hj => ⟨"ETIMEDOUT", if_pos hj⟩) rfl (by decide)
  exact ⟨h.1, h.2.1, h.2.2⟩
